import Mathlib

/-!
# Verification of the email-assistant evaluation harness

Shallow embedding of the evaluation logic in `notebooks/03_evaluation.ipynb`:
the pytest tool-call containment test, the triage classification evaluator,
the partial-run target function, the LLM-judge structured-output schema, and
(modelled from the spec, since they live in the external evaluation SDK) the
grade aggregator, the results store, and the bounded-concurrency batch runner.
-/

namespace EmailEval

/-- Python `str.lower()` on the ASCII tool names and triage labels used by
the notebook: lowercase every character. -/
def str_lower (s : String) : String := ⟨s.data.map Char.toLower⟩

/-- An email-like input record with the fields used by the dataset examples
in the notebook (`author`, `to`, `subject`, `email_thread`). -/
structure EmailInput where
  author : String
  «to» : String
  subject : String
  email_thread : String
deriving Repr, DecidableEq

/-- The narrower decision object returned by the triage-only partial run:
the dict `{"classification_decision": ...}` built by `target_email_assistant`. -/
structure TargetOutputs where
  classification_decision : String
deriving Repr, DecidableEq

/-- A dataset example's reference outputs: the dict `{"classification": ...}`. -/
structure ReferenceOutputs where
  classification : String
deriving Repr, DecidableEq

/-- A dataset example's inputs dict: `{"email_input": ...}`. -/
structure TargetInputs where
  email_input : EmailInput
deriving Repr, DecidableEq

/-- The update object returned by the black-box triage router node
(`email_assistant.nodes['triage_router'].invoke(...)`); the notebook reads
its `classification_decision` entry. -/
structure TriageRouterUpdate where
  classification_decision : String
deriving Repr, DecidableEq

/-- Partial-run target function from the notebook:

```python
def target_email_assistant(inputs: dict) -> dict:
    response = email_assistant.nodes['triage_router'].invoke({"email_input": inputs["email_input"]})
    return {"classification_decision": response.update['classification_decision']}
```

The triage router itself is a black-box agent stage, passed here as a
function parameter. -/
def target_email_assistant (triage_router : EmailInput → TriageRouterUpdate)
    (inputs : TargetInputs) : TargetOutputs :=
  { classification_decision := (triage_router inputs.email_input).classification_decision }

/-- The exact-match triage evaluator from the notebook:

```python
def classification_evaluator(outputs: dict, reference_outputs: dict) -> bool:
    return outputs["classification_decision"].lower() == reference_outputs["classification"].lower()
```
-/
def classification_evaluator (outputs : TargetOutputs)
    (reference_outputs : ReferenceOutputs) : Bool :=
  str_lower outputs.classification_decision == str_lower reference_outputs.classification

/-- The missing-call computation from `test_email_dataset_tool_calls`:

```python
missing_calls = [call for call in expected_calls if call.lower() not in extracted_tool_calls]
```
-/
def missing_calls (expected_calls extracted_tool_calls : List String) : List String :=
  expected_calls.filter (fun call => !(extracted_tool_calls.contains (str_lower call)))

/-- The pass condition of `test_email_dataset_tool_calls`:
`assert len(missing_calls) == 0`. -/
def tool_calls_test_pass (expected_calls extracted_tool_calls : List String) : Bool :=
  (missing_calls expected_calls extracted_tool_calls).length == 0

/-- The outputs logged by `test_email_dataset_tool_calls` via `t.log_outputs`:
the specific missing calls and the extracted tool calls (the `response`
entry is the formatted transcript of the black-box agent, kept abstract). -/
structure ToolCallTestLog where
  missing : List String
  extracted_tool_calls : List String
deriving Repr, DecidableEq

/-- Body of `test_email_dataset_tool_calls`: given the expected calls of a
Case and the tool calls extracted from the agent transcript, it logs the
missing calls and passes iff none are missing. -/
def test_email_dataset_tool_calls (expected_calls extracted_tool_calls : List String) :
    Bool × ToolCallTestLog :=
  let missing := missing_calls expected_calls extracted_tool_calls
  (missing.length == 0, { missing := missing, extracted_tool_calls := extracted_tool_calls })

/-- Structured output schema of the LLM judge, from the notebook:

```python
class CriteriaGrade(BaseModel):
    justification: str = Field(...)
    grade: bool = Field(...)
```

Both fields are required (no defaults) and there are no other fields. -/
structure CriteriaGrade where
  justification : String
  grade : Bool
deriving Repr, DecidableEq

/-- Modelled from the spec: the structured-output binding performed by
`with_structured_output(CriteriaGrade)` (external LLM-client library, not
under version control here). A raw response either carries both required
fields, in which case parsing succeeds, or parsing fails. -/
def parse_criteria_grade : Option String → Option Bool → Option CriteriaGrade
  | some j, some g => some { justification := j, grade := g }
  | _, _ => none

/-- Outcome of grading one Case: a substantive pass, a substantive fail, or
an error (for example a structured-output parsing failure), which the spec
requires to be distinct from both pass and fail. -/
inductive GradeOutcome where
  | pass : GradeOutcome
  | fail : GradeOutcome
  | error (msg : String) : GradeOutcome
deriving Repr, DecidableEq

/-- Whether a grade outcome is a substantive pass. -/
def GradeOutcome.isPass : GradeOutcome → Bool
  | .pass => true
  | _ => false

/-- Whether a grade outcome is a substantive fail. -/
def GradeOutcome.isFail : GradeOutcome → Bool
  | .fail => true
  | _ => false

/-- Whether a grade outcome is an error record. -/
def GradeOutcome.isError : GradeOutcome → Bool
  | .error _ => true
  | _ => false

/-- The fields of an Invocation Result that the judges inspect: the triage
decision, the tool-call names extracted from the transcript, and the message
transcript itself. -/
structure InvocationResult where
  classification_decision : String
  extracted_tool_calls : List String
  messages : List String
deriving Repr, DecidableEq

/-- The reference data of one Case: ground-truth triage label, expected tool
calls, and free-text response criteria. -/
structure CaseReference where
  classification : String
  expected_tool_calls : List String
  response_criteria : String
deriving Repr, DecidableEq

/-- Modelled from the spec: `format_messages_string` (imported from
`email_assistant.utils`, not under version control here) serializes the
message transcript into a single string. -/
def format_messages_string (messages : List String) : String :=
  String.intercalate "\n" messages

/-- User-content string sent to the LLM judge, following the f-string in the
notebook cell that invokes `criteria_eval_structured_llm`. -/
def judge_user_content (criteria all_messages_str : String) : String :=
  "\n\n Response criteria: " ++ criteria ++ " \n\n Assistant's response: \n\n "
    ++ all_messages_str
    ++ " \n\n Evaluate whether the assistant's response meets the criteria and provide justification for your evaluation."

/-- The judge strategies exercised by the notebook: exact triage-label match,
tool-call containment, and LLM-as-judge. -/
inductive JudgeKind where
  | triageExact : JudgeKind
  | toolContainment : JudgeKind
  | llm : JudgeKind
deriving Repr, DecidableEq

/-- One judging step. The secondary judge model is a black box passed in as
`oracle`; it receives the user content built from the Case's criteria and
the serialized transcript and either returns a parsed `CriteriaGrade` or
fails to produce a parseable structured result (`none`). The two structural
strategies never consult the oracle; the LLM strategy records a parsing
failure as an error outcome, distinct from pass and fail. -/
def run_judge (oracle : String → Option CriteriaGrade) :
    JudgeKind → InvocationResult → CaseReference → GradeOutcome
  | .triageExact, r, c =>
      if classification_evaluator { classification_decision := r.classification_decision }
          { classification := c.classification } then .pass else .fail
  | .toolContainment, r, c =>
      if tool_calls_test_pass c.expected_tool_calls r.extracted_tool_calls then .pass else .fail
  | .llm, r, c =>
      match oracle (judge_user_content c.response_criteria (format_messages_string r.messages)) with
      | some g => if g.grade then .pass else .fail
      | none => .error "structured output parsing failure"

/-- Aggregate feedback statistics, shaped after the `feedback_stats` read
back from the results store in the notebook (a scored count `n`, an average
`avg` of the 0/1 pass scores, and a separate `errors` count). -/
structure FeedbackStats where
  n : Nat
  avg : ℚ
  errors : Nat
deriving Repr, DecidableEq

/-- Modelled from the spec: the aggregator of the external results store.
Grades that are substantive (pass or fail) are scored; the average is the
mean of their 0/1 pass indicators; error outcomes are counted separately
and contribute to no other statistic. -/
def feedback_stats (grades : List GradeOutcome) : FeedbackStats :=
  let scored := grades.filter (fun g => g.isPass || g.isFail)
  { n := scored.length
    avg := (scored.foldl (fun acc g => acc + (if g.isPass then (1 : ℚ) else 0)) 0) / scored.length
    errors := (grades.filter (fun g => g.isError)).length }

/-- Modelled from the spec: the write operation of the results store records
a run's Grades under a run identifier. -/
def write_run (store : List (String × List GradeOutcome)) (run_id : String)
    (grades : List GradeOutcome) : List (String × List GradeOutcome) :=
  (run_id, grades) :: store

/-- Modelled from the spec: the read-back operation (`client.read_project`
in the notebook) reconstructs aggregate statistics for a named prior run
without re-invoking the agent. -/
def read_project (store : List (String × List GradeOutcome)) (run_id : String) :
    Option FeedbackStats :=
  (store.lookup run_id).map feedback_stats

/-- One Case's invoke-then-judge pipeline, used by the batch runner: the
black-box target either errors (invocation error, recorded for this Case
alone) or produces outputs that the evaluator grades. -/
def per_case_result (target : TargetInputs → Except String TargetOutputs)
    (evaluator : TargetOutputs → ReferenceOutputs → Bool)
    (case : TargetInputs × ReferenceOutputs) : Except String Bool :=
  (target case.1).map (fun o => evaluator o case.2)

/-- Waves of at most `n` elements: the list split into successive chunks. -/
def chunks (n : Nat) : List α → List (List α)
  | [] => []
  | x :: xs => (x :: xs.take (n - 1)) :: chunks n (xs.drop (n - 1))
termination_by l => l.length
decreasing_by simp [List.length_drop]; omega

/-- Modelled from the spec: `client.evaluate(..., max_concurrency=...)` of
the external SDK. Bounded concurrency is modelled as running the Cases in
successive waves of at most `max_concurrency` simultaneously in-flight
Cases; within a wave every Case's pipeline runs independently, with no
shared state between Cases, and results are concatenated in order. -/
def evaluate_batch (target : TargetInputs → Except String TargetOutputs)
    (evaluator : TargetOutputs → ReferenceOutputs → Bool)
    (max_concurrency : Nat) (cases : List (TargetInputs × ReferenceOutputs)) :
    List (Except String Bool) :=
  ((chunks max_concurrency cases).map (fun wave => wave.map (per_case_result target evaluator))).flatten

/-- Concrete email input, dataset example 0 of the notebook. -/
def demo_email : EmailInput :=
  { author := "Alice Smith <alice.smith@company.com>"
    «to» := "Lance Martin <lance@company.com>"
    subject := "Quick question about API documentation"
    email_thread := "Hi Lance,\n\nI was reviewing the API documentation for the new authentication service and noticed a few endpoints seem to be missing from the specs.\n\nSpecifically:\n- /auth/refresh\n- /auth/validate\n\nThanks!\nAlice" }

/-- Concrete black-box router that classifies every email as `notify`. -/
def demo_notify_router : EmailInput → TriageRouterUpdate :=
  fun _ => { classification_decision := "notify" }

/-- Concrete judge oracle that always fails to return a parseable result. -/
def demo_oracle_none : String → Option CriteriaGrade :=
  fun _ => none

/-- Concrete judge oracle that always returns a passing grade. -/
def demo_oracle_true : String → Option CriteriaGrade :=
  fun _ => some { justification := "meets criteria", grade := true }

/-- Concrete Invocation Result for dataset example 0. -/
def demo_result : InvocationResult :=
  { classification_decision := "respond"
    extracted_tool_calls := ["write_email", "done"]
    messages := ["write_email: acknowledgement draft", "done"] }

/-- Concrete Case reference for dataset example 0. -/
def demo_reference : CaseReference :=
  { classification := "respond"
    expected_tool_calls := ["write_email", "done"]
    response_criteria := "• Send email with write_email tool call to acknowledge the question and confirm it will be investigated" }

/-- Concrete run of 15 recorded grades, 14 passes and 1 fail, matching the
experiment read back in the notebook. -/
def demo_grades : List GradeOutcome :=
  List.replicate 14 .pass ++ [.fail]

/-- Concrete black-box target that errors on one subject and triages every
other email as `respond`. -/
def demo_target : TargetInputs → Except String TargetOutputs :=
  fun i =>
    if i.email_input.subject == "boom" then .error "provider error"
    else .ok { classification_decision := "respond" }

/-- Concrete batch of two Cases, the second of which makes `demo_target`
error. -/
def demo_cases : List (TargetInputs × ReferenceOutputs) :=
  [({ email_input := demo_email }, { classification := "respond" }),
   ({ email_input := { demo_email with subject := "boom" } }, { classification := "ignore" })]

end EmailEval

namespace EmailEval

/-- A call is in the missing list iff it is an expected call whose lowercase
form is absent from the extracted tool-call set. -/
theorem mem_missing_calls (e x : List String) (c : String) :
    c ∈ missing_calls e x ↔ c ∈ e ∧ str_lower c ∉ x := by
  simp [missing_calls, List.mem_filter]

/-- The containment test passes iff the lowercase form of every expected
call is in the extracted tool-call set. -/
theorem tool_calls_pass_iff (e x : List String) :
    tool_calls_test_pass e x = true ↔ ∀ c ∈ e, str_lower c ∈ x := by
  simp [tool_calls_test_pass, missing_calls, List.length_eq_zero, List.filter_eq_nil_iff]

/-- Folding the 0/1 pass indicator over a grade list counts the passes. -/
theorem foldl_pass_indicator (l : List GradeOutcome) (init : ℚ) :
    l.foldl (fun acc g => acc + (if g.isPass then (1 : ℚ) else 0)) init
      = init + l.countP GradeOutcome.isPass := by
  induction l generalizing init with
  | nil => simp
  | cons g gs ih =>
      rw [List.foldl_cons, ih, List.countP_cons]
      by_cases h : g.isPass
      · simp [h]; ring
      · simp [h]

/-- An error outcome is literally an `error` constructor. -/
theorem isError_spec (g : GradeOutcome) : g.isError = true ↔ ∃ m, g = .error m := by
  cases g <;> simp [GradeOutcome.isError]

/-- Substantive outcomes are exactly the non-errors. -/
theorem scored_of_not_error (g : GradeOutcome) (h : g.isError = false) :
    (g.isPass || g.isFail) = true := by
  cases g <;> simp_all [GradeOutcome.isError, GradeOutcome.isPass, GradeOutcome.isFail]

/-- Claim C2: the exact-match triage judge returns true iff the result's
classification decision equals the reference classification after
lowercasing both sides; it is literally the boolean equality of the two
lowercased labels. -/
theorem claim_C2_triage_exact_match (o : TargetOutputs) (r : ReferenceOutputs) :
    classification_evaluator o r
        = (str_lower o.classification_decision == str_lower r.classification) ∧
      (classification_evaluator o r = true ↔
        str_lower o.classification_decision = str_lower r.classification) := by
  refine ⟨rfl, ?_⟩
  simp [classification_evaluator]

/-- Witness for C2 at the concrete labels RESPOND / respond. -/
theorem claim_C2_witness :
    classification_evaluator { classification_decision := "RESPOND" }
      { classification := "respond" } = true :=
  (claim_C2_triage_exact_match { classification_decision := "RESPOND" }
      { classification := "respond" }).2.mpr (by decide)

/-- Counterexample to C1 as stated: with reference tool calls `["Done"]` and
extracted set `["Done"]`, every reference tool-call name appears in the
extracted set, yet the judge fails (the code lowercases the reference name
before the verbatim membership test). -/
theorem claim_C1_counterexample :
    ("Done" ∈ ["Done"] ∧ ∀ c ∈ ["Done"], c ∈ (["Done"] : List String)) ∧
      tool_calls_test_pass ["Done"] ["Done"] = false := by
  decide

/-- Claim C1 (amended): the tool-call containment judge passes iff the
LOWERCASED form of every reference tool-call name appears at least once in
the extracted tool-call set, order and repetition ignored; in particular,
for the Case whose reference tool calls are `["write_email", "done"]`, any
extracted set containing both (already-lowercase) names, in either order,
passes. -/
theorem claim_C1_tool_call_containment :
    (∀ e x, tool_calls_test_pass e x = true ↔ ∀ c ∈ e, str_lower c ∈ x) ∧
      (∀ x : List String, "write_email" ∈ x → "done" ∈ x →
        tool_calls_test_pass ["write_email", "done"] x = true) := by
  refine ⟨tool_calls_pass_iff, fun x h1 h2 => ?_⟩
  rw [tool_calls_pass_iff]
  intro c hc
  simp only [List.mem_cons, List.not_mem_nil, or_false] at hc
  rcases hc with rfl | rfl
  · have : str_lower "write_email" = "write_email" := by decide
    rw [this]; exact h1
  · have : str_lower "done" = "done" := by decide
    rw [this]; exact h2

/-- Witness for C1 (amended) at the concrete scenario: both reference tool
calls present, in the opposite order. -/
theorem claim_C1_witness :
    tool_calls_test_pass ["write_email", "done"] ["done", "write_email"] = true :=
  claim_C1_tool_call_containment.2 ["done", "write_email"] (by decide) (by decide)

/-- Claim C8: the tool-call test surfaces the specific missing expected
elements — the logged missing list holds exactly the reference tool calls
absent (after lowercasing) from the extracted set — and the test passes
exactly when that missing list is empty. -/
theorem claim_C8_missing_items_surfaced (e x : List String) :
    (test_email_dataset_tool_calls e x).2.missing = missing_calls e x ∧
      (∀ c, c ∈ (test_email_dataset_tool_calls e x).2.missing ↔
        c ∈ e ∧ str_lower c ∉ x) ∧
      ((test_email_dataset_tool_calls e x).1 = true ↔
        (test_email_dataset_tool_calls e x).2.missing = []) := by
  refine ⟨rfl, fun c => mem_missing_calls e x c, ?_⟩
  simp [test_email_dataset_tool_calls, List.length_eq_zero]

/-- Witness for C8: a run missing `write_email` logs exactly that call and
fails; the pass condition is equivalent to an empty missing list. -/
theorem claim_C8_witness :
    (test_email_dataset_tool_calls ["write_email", "done"] ["done"]).2.missing
        = ["write_email"] ∧
      (test_email_dataset_tool_calls ["write_email", "done"] ["done"]).1 = false := by
  have h := (claim_C8_missing_items_surfaced ["write_email", "done"] ["done"]).2.2
  exact ⟨by decide, by
    rcases hb : (test_email_dataset_tool_calls ["write_email", "done"] ["done"]).1 with _ | _
    · rfl
    · exact absurd (h.mp hb) (by decide)⟩

/-- Claim C10: case-insensitivity of the containment check is one-sided.
Concretely, with reference `["write_email"]` and extracted set
`["Write_Email"]` the judge reports the call missing and fails even though
the two names are equal ignoring case; and whenever the extractor returns
only lowercase names, the check does behave as full case-insensitive
containment. -/
theorem claim_C10_one_sided_lowercasing :
    (missing_calls ["write_email"] ["Write_Email"] = ["write_email"] ∧
      str_lower "Write_Email" = str_lower "write_email" ∧
      tool_calls_test_pass ["write_email"] ["Write_Email"] = false) ∧
      (∀ e x, (∀ n ∈ x, str_lower n = n) →
        (tool_calls_test_pass e x = true ↔
          ∀ c ∈ e, ∃ n ∈ x, str_lower n = str_lower c)) := by
  refine ⟨by decide, fun e x hx => ?_⟩
  rw [tool_calls_pass_iff]
  constructor
  · intro h c hc
    exact ⟨str_lower c, h c hc, hx _ (h c hc)⟩
  · intro h c hc
    obtain ⟨m, hm, he⟩ := h c hc
    have : m = str_lower c := ((hx m hm).symm.trans he)
    rw [← this]; exact hm

/-- Witness for C10: with an all-lowercase extracted set, a mixed-case
reference name passes the check case-insensitively. -/
theorem claim_C10_witness :
    tool_calls_test_pass ["Write_Email"] ["write_email"] = true :=
  (claim_C10_one_sided_lowercasing.2 ["Write_Email"] ["write_email"]
    (by decide)).mpr (by decide)

/-- Claim C6: the partial-run invocation routes the input through only the
black-box triage router sub-stage and returns the narrower decision object
holding only that stage's classification decision; consequently a stage-only
invocation returning `notify` against a Case whose reference triage is
`ignore` is graded fail by the structural judge. -/
theorem claim_C6_partial_run (triage_router : EmailInput → TriageRouterUpdate)
    (inputs : TargetInputs) :
    target_email_assistant triage_router inputs
        = { classification_decision :=
              (triage_router inputs.email_input).classification_decision } ∧
      ((triage_router inputs.email_input).classification_decision = "notify" →
        classification_evaluator (target_email_assistant triage_router inputs)
          { classification := "ignore" } = false) := by
  refine ⟨rfl, fun h => ?_⟩
  unfold classification_evaluator target_email_assistant
  simp only [h]
  decide

/-- Witness for C6 with a concrete router that returns `notify`. -/
theorem claim_C6_witness :
    classification_evaluator
        (target_email_assistant demo_notify_router { email_input := demo_email })
        { classification := "ignore" } = false :=
  (claim_C6_partial_run demo_notify_router { email_input := demo_email }).2 rfl

/-- Claim C4: the structural judges are deterministic — their Grade does not
depend on the secondary-model oracle at all, so for the triage-exact and
tool-containment strategies the outcome is a pure function of the
(Invocation Result, Case reference) pair and re-running yields identical
Grades. -/
theorem claim_C4_structural_deterministic (o₁ o₂ : String → Option CriteriaGrade)
    (k : JudgeKind) (r : InvocationResult) (c : CaseReference)
    (h : k = .triageExact ∨ k = .toolContainment) :
    run_judge o₁ k r c = run_judge o₂ k r c := by
  rcases h with rfl | rfl <;> rfl

/-- Witness for C4: two maximally different oracles (one always failing, one
always passing) grade identically under both structural strategies. -/
theorem claim_C4_witness :
    run_judge demo_oracle_none .triageExact demo_result demo_reference
      = run_judge demo_oracle_true .triageExact demo_result demo_reference :=
  claim_C4_structural_deterministic demo_oracle_none demo_oracle_true
    .triageExact demo_result demo_reference (Or.inl rfl)

/-- Claim C7: the LLM judge's structured result has exactly two fields, a
justification string and a boolean grade — every `CriteriaGrade` is fully
determined by those two fields — and parsing succeeds precisely when both
required fields are present, in which case the parsed result carries
exactly them. -/
theorem claim_C7_two_field_schema :
    (∀ g : CriteriaGrade, g = { justification := g.justification, grade := g.grade }) ∧
      (∀ (oj : Option String) (og : Option Bool) (g : CriteriaGrade),
        parse_criteria_grade oj og = some g ↔
          oj = some g.justification ∧ og = some g.grade) := by
  constructor
  · intro g; cases g; rfl
  · intro oj og g
    cases oj <;> cases og <;> cases g <;>
      simp [parse_criteria_grade, CriteriaGrade.mk.injEq, eq_comm]

/-- Witness for C7 at a concrete raw response carrying both fields. -/
theorem claim_C7_witness :
    parse_criteria_grade (some "meets criteria") (some true)
      = some { justification := "meets criteria", grade := true } :=
  (claim_C7_two_field_schema.2 (some "meets criteria") (some true)
    { justification := "meets criteria", grade := true }).mpr ⟨rfl, rfl⟩

/-- Claim C3: when the secondary judge-model call fails to return a
parseable structured result, the Case's Grade is an error — neither a pass
nor a fail — and appending an error Grade to a run leaves the scored count,
the pass average and hence the pass/fail statistics untouched while
incrementing only the separate error count. -/
theorem claim_C3_judge_error (oracle : String → Option CriteriaGrade)
    (r : InvocationResult) (c : CaseReference)
    (h : oracle (judge_user_content c.response_criteria
        (format_messages_string r.messages)) = none) :
    (run_judge oracle .llm r c).isError = true ∧
      (run_judge oracle .llm r c).isPass = false ∧
      (run_judge oracle .llm r c).isFail = false ∧
      (∀ (grades : List GradeOutcome) (g : GradeOutcome), g.isError = true →
        feedback_stats (grades ++ [g])
          = { n := (feedback_stats grades).n
              avg := (feedback_stats grades).avg
              errors := (feedback_stats grades).errors + 1 }) := by
  refine ⟨?_, ?_, ?_, ?_⟩
  · simp [run_judge, h, GradeOutcome.isError]
  · simp [run_judge, h, GradeOutcome.isPass]
  · simp [run_judge, h, GradeOutcome.isFail]
  · intro grades g hg
    obtain ⟨m, rfl⟩ := (isError_spec g).mp hg
    simp [feedback_stats, List.filter_append, GradeOutcome.isPass,
      GradeOutcome.isFail, GradeOutcome.isError]

/-- Witness for C3: the always-unparseable oracle produces an error Grade,
and recording it on top of the 15-grade demo run changes only the error
count. -/
theorem claim_C3_witness :
    (run_judge demo_oracle_none .llm demo_result demo_reference).isError = true ∧
      (run_judge demo_oracle_none .llm demo_result demo_reference).isPass = false ∧
      (run_judge demo_oracle_none .llm demo_result demo_reference).isFail = false ∧
      feedback_stats (demo_grades ++ [.error "structured output parsing failure"])
        = { n := (feedback_stats demo_grades).n
            avg := (feedback_stats demo_grades).avg
            errors := (feedback_stats demo_grades).errors + 1 } := by
  obtain ⟨h1, h2, h3, h4⟩ :=
    claim_C3_judge_error demo_oracle_none demo_result demo_reference rfl
  exact ⟨h1, h2, h3, h4 demo_grades _ rfl⟩

/-- Claim C5: for every run of recorded Grades with no errors, writing the
run to the results store and reading it back reports the run's own
statistics, whose scored count is the number of recorded Grades and whose
pass rate is exactly the number of passes divided by the number of Grades. -/
theorem claim_C5_pass_rate (store : List (String × List GradeOutcome))
    (run_id : String) (grades : List GradeOutcome)
    (h : ∀ g ∈ grades, g.isError = false) :
    read_project (write_run store run_id grades) run_id
        = some (feedback_stats grades) ∧
      (feedback_stats grades).n = grades.length ∧
      (feedback_stats grades).avg
        = (grades.countP GradeOutcome.isPass : ℚ) / (grades.length : ℚ) := by
  have hs : grades.filter (fun g => g.isPass || g.isFail) = grades :=
    List.filter_eq_self.mpr (fun g hg => scored_of_not_error g (h g hg))
  refine ⟨?_, ?_, ?_⟩
  · simp [read_project, write_run, List.lookup]
  · simp [feedback_stats, hs]
  · simp only [feedback_stats, hs]
    rw [foldl_pass_indicator]
    simp

/-- Witness for C5: the run of 15 recorded Grades with 14 passes and 1 fail
reads back with scored count 15 and pass rate exactly 14/15. -/
theorem claim_C5_witness :
    read_project (write_run [] "email_assistant" demo_grades) "email_assistant"
        = some (feedback_stats demo_grades) ∧
      (feedback_stats demo_grades).n = 15 ∧
      (feedback_stats demo_grades).avg = 14 / 15 := by
  obtain ⟨h1, h2, h3⟩ :=
    claim_C5_pass_rate [] "email_assistant" demo_grades (by decide)
  refine ⟨h1, ?_, ?_⟩
  · rw [h2]; decide
  · rw [h3]
    have hc : demo_grades.countP GradeOutcome.isPass = 14 := by decide
    have hl : demo_grades.length = 15 := by decide
    rw [hc, hl]
    norm_num

/-- Flattening the waves recovers the case list unchanged. -/
theorem chunks_flatten (n : Nat) (l : List α) : (chunks n l).flatten = l := by
  induction l using chunks.induct n with
  | case1 => simp [chunks]
  | case2 x xs ih => simp [chunks, ih, List.take_append_drop]

/-- Every wave holds at most `max n 1` cases. -/
theorem chunks_wave_le (n : Nat) (l : List α) :
    ∀ w ∈ chunks n l, w.length ≤ max n 1 := by
  induction l using chunks.induct n with
  | case1 => simp [chunks]
  | case2 x xs ih =>
      intro w hw
      rw [chunks] at hw
      rcases List.mem_cons.mp hw with rfl | hw
      · have ht : (xs.take (n - 1)).length ≤ n - 1 := by
          simp [List.length_take]
        simp only [List.length_cons]
        omega
      · exact ih w hw

/-- The batch result is the per-case pipeline mapped over the cases,
independently of the wave structure. -/
theorem evaluate_batch_eq_map (t : TargetInputs → Except String TargetOutputs)
    (ev : TargetOutputs → ReferenceOutputs → Bool) (m : Nat)
    (cases : List (TargetInputs × ReferenceOutputs)) :
    evaluate_batch t ev m cases = cases.map (per_case_result t ev) := by
  unfold evaluate_batch
  rw [← List.map_flatten, chunks_flatten]

/-- Claim C9: the batch runner supports a caller-specified bound on the
number of simultaneously in-flight Cases (every wave holds at most
`max_concurrency` Cases), each Case's invoke-judge pipeline is independent
(the batch result is exactly the per-case pipeline mapped over the Cases,
with no shared state between them and an output entry for every Case even
when some Case's pipeline errors), and the results of a permuted batch are
the permuted results. -/
theorem claim_C9_bounded_concurrency (t : TargetInputs → Except String TargetOutputs)
    (ev : TargetOutputs → ReferenceOutputs → Bool) (m : Nat)
    (cases : List (TargetInputs × ReferenceOutputs)) (hm : 0 < m) :
    evaluate_batch t ev m cases = cases.map (per_case_result t ev) ∧
      (∀ w ∈ chunks m cases, w.length ≤ m) ∧
      (evaluate_batch t ev m cases).length = cases.length ∧
      (∀ cases₂, cases.Perm cases₂ →
        (evaluate_batch t ev m cases).Perm (evaluate_batch t ev m cases₂)) := by
  refine ⟨evaluate_batch_eq_map t ev m cases, ?_, ?_, ?_⟩
  · intro w hw
    have hle := chunks_wave_le m cases w hw
    omega
  · rw [evaluate_batch_eq_map]
    simp
  · intro cases₂ hp
    rw [evaluate_batch_eq_map, evaluate_batch_eq_map]
    exact hp.map _

/-- Witness for C9: a two-case batch with concurrency bound 2 whose second
Case errors still yields one result per Case, computed independently. -/
theorem claim_C9_witness :
    evaluate_batch demo_target classification_evaluator 2 demo_cases
        = demo_cases.map (per_case_result demo_target classification_evaluator) ∧
      (evaluate_batch demo_target classification_evaluator 2 demo_cases).length
        = demo_cases.length ∧
      evaluate_batch demo_target classification_evaluator 2 demo_cases
        = [Except.ok true, Except.error "provider error"] := by
  obtain ⟨h1, _, h3, _⟩ :=
    claim_C9_bounded_concurrency demo_target classification_evaluator 2 demo_cases
      (by decide)
  refine ⟨h1, h3, ?_⟩
  rw [h1]
  rfl

end EmailEval
